import Mathlib

/-!
Shallow embedding of the DVR / HA L3-agent core
(neutron/agent/l3/dvr.py and neutron/agent/l3/ha.py).

Conventions:
* Python dicts keyed by strings are association lists with unique keys.
* Machine integers are Nat, masked explicitly where the code masks.
* Calls into kernel primitives (ip rule / route / device / sysctl /
  neighbor operations) are recorded as actions in a trace; their outcome
  is an explicit parameter wherever a claim depends on failure behaviour.
* Python exceptions are modelled with Except.
* The parts of dvr_fip_ns.FipNamespace and of the agent base class that
  dvr.py calls but that are not under src/ carry a doc comment starting
  with "Modelled from the spec:".
-/

/-- xor-folding mask used for the IPv6 rule index (dvr.py line 30). -/
def MASK_30 : Nat := 0x3fffffff

/-- One bit step of the reflected CRC-32 polynomial 0xEDB88320. -/
def crc32Step (c : Nat) : Nat :=
  if c &&& 1 = 1 then (c >>> 1) ^^^ 0xedb88320 else c >>> 1

/-- Iterate crc32Step n times. -/
def crc32Bits : Nat → Nat → Nat
  | 0, c => c
  | n + 1, c => crc32Bits n (crc32Step c)

/-- Fold one byte into the running CRC state. -/
def crc32Byte (c b : Nat) : Nat :=
  crc32Bits 8 (c ^^^ (b % 256))

/-- CRC-32 over a byte list, state-passing form. -/
def crc32List : List Nat → Nat → Nat
  | [], c => c
  | b :: bs, c => crc32List bs (crc32Byte c b)

/-- binascii.crc32 of an ASCII string, masked to 32 bits exactly as the
source does with crc32(s) and 0xffffffff (dvr.py line 128). -/
def crc32 (s : String) : Nat :=
  crc32List (s.data.map Char.toNat) 0xffffffff ^^^ 0xffffffff

/-- Split a character list on a separator character (Python str.split). -/
def splitOnChar (sep : Char) : List Char → List (List Char)
  | [] => [[]]
  | c :: cs =>
    let rest := splitOnChar sep cs
    if c = sep then [] :: rest
    else
      match rest with
      | r :: rs => (c :: r) :: rs
      | [] => [[c]]

/-- Decimal digit value of a character, none for a non-digit. -/
def decDigit (c : Char) : Option Nat :=
  if c.isDigit then some (c.toNat - 48) else none

def decValueAux : List Char → Nat → Option Nat
  | [], acc => some acc
  | c :: cs, acc =>
    match decDigit c with
    | some d => decValueAux cs (acc * 10 + d)
    | none => none

/-- Parse a nonempty all-digit character list as a decimal number. -/
def decValue : List Char → Option Nat
  | [] => none
  | l => decValueAux l 0

/-- Model of netaddr: parse a dotted-quad IPv4 CIDR string "a.b.c.d/p" to
(address value, prefix length). The address value keeps the host bits,
exactly as netaddr.IPNetwork keeps them: IPNetwork with the text
10.0.0.5/24 has value equal to the value of 10.0.0.5, not of the masked
base 10.0.0.0. -/
def parseIPv4 (s : String) : Option (Nat × Nat) :=
  match splitOnChar '/' s.data with
  | [addr, pfxChars] =>
    match splitOnChar '.' addr with
    | [a, b, c, d] =>
      match decValue a, decValue b, decValue c, decValue d, decValue pfxChars with
      | some av, some bv, some cv, some dv, some pv =>
        if av ≤ 255 ∧ bv ≤ 255 ∧ cv ≤ 255 ∧ dv ≤ 255 ∧ pv ≤ 32 then
          some (((av * 256 + bv) * 256 + cv) * 256 + dv, pv)
        else none
      | _, _, _, _, _ => none
    | _ => none
  | _ => none

/-- Model of netaddr: the version split performed by netaddr.IPNetwork.
A dotted-quad CIDR is IPv4; otherwise a string containing a colon is IPv6
(only the version matters to the code under test, the IPv6 address value
is never used); anything else raises AddrFormatError, modelled as none. -/
inductive IPNetV where
  | v4 (value : Nat) (prefixlen : Nat)
  | v6
deriving DecidableEq, Repr

def ipNetworkParse (s : String) : Option IPNetV :=
  match parseIPv4 s with
  | some vp => some (IPNetV.v4 vp.1 vp.2)
  | none => if s.data.any (fun c => c = ':') then some IPNetV.v6 else none

/-- AgentMixin._get_snat_idx (dvr.py lines 116-135). IPv6 CIDRs hash via
CRC-32 of the string, xor-fold to 30 bits and are offset by MASK_30 when
below 32768; IPv4 CIDRs use the numeric value of the cidr. A parse
failure models the netaddr exception. -/
def get_snat_idx (ip_cidr : String) : Option Nat :=
  match ipNetworkParse ip_cidr with
  | none => none
  | some IPNetV.v6 =>
    let snat_idx := crc32 ip_cidr &&& 0xffffffff
    let folded := (snat_idx >>> 30) ^^^ (snat_idx &&& MASK_30)
    some (if folded < 32768 then folded + MASK_30 else folded)
  | some (IPNetV.v4 value _) => some value

/-- Spec-side definition, written from the claim's words and not from the
code: the 32-bit integer value of the NETWORK BASE address of an IPv4
CIDR, i.e. the written address with its host bits cleared. -/
def specIPv4BaseValue (s : String) : Option Nat :=
  (parseIPv4 s).map (fun vp => (vp.1 >>> (32 - vp.2)) <<< (32 - vp.2))

/-- Kernel-level effects of the SNAT redirection functions. -/
inductive SnatAction where
  | addGateway (dev gw : String) (table : Nat)
  | delGateway (dev : String) (table : Nat)
  | ruleAdd (cidr : String) (table rulePrio : Nat)
  | ruleDel (cidr : String) (table rulePrio : Nat)
  | sysctlSendRedirects (dev : String) (enabled : Bool)
deriving DecidableEq, Repr

/-- AgentMixin._snat_redirect_add (dvr.py lines 233-246): default route
toward the gateway in the subnet's table, policy rule for the CIDR at
priority equal to the table index, and send_redirects=0 on the internal
device. none models the swallowed exception path (nothing applied). -/
def snat_redirect_add (ip_cidr gateway sn_int : String) : Option (List SnatAction) :=
  (get_snat_idx ip_cidr).map (fun snat_idx =>
    [SnatAction.addGateway sn_int gateway snat_idx,
     SnatAction.ruleAdd ip_cidr snat_idx snat_idx,
     SnatAction.sysctlSendRedirects sn_int false])

/-- AgentMixin._snat_redirect_remove (dvr.py lines 248-259): deletes the
gateway route in the subnet's table and the policy rule; it issues no
sysctl call. -/
def snat_redirect_remove (ip_cidr sn_int : String) : Option (List SnatAction) :=
  (get_snat_idx ip_cidr).map (fun snat_idx =>
    [SnatAction.delGateway sn_int snat_idx,
     SnatAction.ruleDel ip_cidr snat_idx snat_idx])

/-- One remove-side action exactly undoes one add-side action. -/
def SnatAction.isUndoOf : SnatAction → SnatAction → Bool
  | SnatAction.delGateway d t, SnatAction.addGateway d2 _ t2 => d == d2 && t == t2
  | SnatAction.ruleDel c t p, SnatAction.ruleAdd c2 t2 p2 => c == c2 && t == t2 && p == p2
  | SnatAction.sysctlSendRedirects d true, SnatAction.sysctlSendRedirects d2 false => d == d2
  | _, _ => false

/-- Modelled from the spec: the FIP namespace's fixed rule-table
identifier (dvr_fip_ns.FIP_RT_TBL is not under src/; spec section 3 calls
it a fixed identifier distinct from the kernel default tables). -/
def FIP_RT_TBL : Nat := 16

/-- Association-list lookup, Python dict membership and d.get(k). -/
def assocLookup {α : Type} (d : List (String × α)) (k : String) : Option α :=
  match d with
  | [] => none
  | (k2, v) :: rest => if k2 = k then some v else assocLookup rest k

/-- Python dict assignment d[k] = v: update in place or append. -/
def dictSet (d : List (String × Nat)) (k : String) (v : Nat) : List (String × Nat) :=
  match d with
  | [] => [(k, v)]
  | (k2, v2) :: rest => if k2 = k then (k, v) :: rest else (k2, v2) :: dictSet rest k v

/-- Per-router state touched by the distributed floating-IP controller
(RouterInfo attributes used by dvr.py). The subnet lease is tracked only
as present or absent. -/
structure RouterInfo where
  router_id : String
  floating_ips_dict : List (String × Nat)
  dist_fip_count : Int
  rtr_fip_subnet : Option Unit
deriving DecidableEq, Repr

/-- Modelled from the spec: the observable state of
dvr_fip_ns.FipNamespace (not under src/) — subscriber set and the pool of
free rule priorities (spec sections 3, 4.2, 4.4). -/
structure FipNs where
  subscribers : List String
  free_priorities : List Nat
deriving DecidableEq, Repr

structure DvrState where
  ri : RouterInfo
  fip_ns : FipNs
  fip_ns_destroyed : Bool
deriving DecidableEq, Repr

/-- Modelled from the spec: FipNamespace.allocate_rule_priority (spec 4.4:
allocate returns a fresh priority, fails when the range is saturated);
the pool hands out its first free priority. -/
def FipNs.allocate_rule_priority (ns : FipNs) : Option (Nat × FipNs) :=
  match ns.free_priorities with
  | [] => none
  | pr :: rest => some (pr, { ns with free_priorities := rest })

/-- Modelled from the spec: FipNamespace.deallocate_rule_priority (spec 3:
deallocated priorities become eligible for reuse). -/
def FipNs.deallocate_rule_priority (ns : FipNs) (pr : Nat) : FipNs :=
  { ns with free_priorities := pr :: ns.free_priorities }

/-- Modelled from the spec: FipNamespace.unsubscribe (spec 4.2: removes the
router from the subscriber set and returns whether the set is now empty). -/
def FipNs.unsubscribe (ns : FipNs) (router_id : String) : FipNs × Bool :=
  let subs := ns.subscribers.filter (fun r => r != router_id)
  ({ ns with subscribers := subs }, subs.isEmpty)

/-- Kernel-level effects of the floating-IP controller. -/
inductive FipAction where
  | ipRuleAdd (ip : String) (table rulePrio : Nat)
  | ipRuleDel (ip : String) (table rulePrio : Nat)
  | routeAdd (fip_cidr : String)
  | routeDel (fip_cidr : String)
  | garp (floating_ip : String)
  | delGatewayFipTable
  | delVeth
  | destroyFipNamespace
deriving DecidableEq, Repr

/-- AgentMixin.floating_ip_added_dist (dvr.py lines 171-194): allocate a
rule priority, record it in floating_ips_dict, install the policy rule,
the FIP-namespace route and a gratuitous ARP, then increment
dist_fip_count. Kernel primitives are recorded in the trace and assumed
to succeed; allocator exhaustion and a missing rtr_fip_subnet (a Python
AttributeError on None.get_pair()) abort with none. -/
def floating_ip_added_dist (s : DvrState) (floating_ip fixed_ip fip_cidr : String) :
    Option (DvrState × List FipAction) :=
  match FipNs.allocate_rule_priority s.fip_ns with
  | none => none
  | some (rule_pr, ns1) =>
    match s.ri.rtr_fip_subnet with
    | none => none
    | some _ =>
      some ({ ri := { s.ri with
                floating_ips_dict := dictSet s.ri.floating_ips_dict floating_ip rule_pr,
                dist_fip_count := s.ri.dist_fip_count + 1 },
              fip_ns := ns1,
              fip_ns_destroyed := s.fip_ns_destroyed },
            [FipAction.ipRuleAdd fixed_ip FIP_RT_TBL rule_pr,
             FipAction.routeAdd fip_cidr, FipAction.garp floating_ip])

/-- Python fip_cidr.split with separator slash, first component. -/
def cidrAddr (fip_cidr : String) : String :=
  String.mk (fip_cidr.data.takeWhile (fun c => c != '/'))

/-- AgentMixin.floating_ip_removed_dist (dvr.py lines 196-231). The lazy
lease re-acquisition at lines 201-202 and the FipNamespace calls are
modelled from the spec (sections 4.2, 4.3) because dvr_fip_ns and the
agent base class are not under src/. Faithful to the source: when the
floating address is in floating_ips_dict its policy rule is deleted and
its priority deallocated, but the dict entry itself is never removed;
dist_fip_count is decremented unconditionally; when the count reaches
zero the lease is released, the router unsubscribes from the FIP
namespace and, only if that unsubscribe reports last, the namespace is
destroyed. -/
def floating_ip_removed_dist (s : DvrState) (fip_cidr : String) : DvrState × List FipAction :=
  let floating_ip := cidrAddr fip_cidr
  let ri1 : RouterInfo :=
    if s.ri.rtr_fip_subnet = none
    then { s.ri with rtr_fip_subnet := some () } else s.ri
  let step1 :=
    match assocLookup ri1.floating_ips_dict floating_ip with
    | some rule_pr =>
      (FipNs.deallocate_rule_priority s.fip_ns rule_pr,
       [FipAction.ipRuleDel floating_ip FIP_RT_TBL rule_pr])
    | none => (s.fip_ns, [])
  let ns1 := step1.1
  let acts1 := step1.2 ++ [FipAction.routeDel fip_cidr]
  let ri2 : RouterInfo := { ri1 with dist_fip_count := ri1.dist_fip_count - 1 }
  if ri2.dist_fip_count = 0 then
    let ri3 : RouterInfo := { ri2 with rtr_fip_subnet := none }
    let u := FipNs.unsubscribe ns1 ri2.router_id
    ({ ri := ri3, fip_ns := u.1,
       fip_ns_destroyed := s.fip_ns_destroyed || u.2 },
     acts1 ++ [FipAction.delGatewayFipTable, FipAction.delVeth] ++
       (if u.2 then [FipAction.destroyFipNamespace] else []))
  else
    ({ ri := ri2, fip_ns := ns1, fip_ns_destroyed := s.fip_ns_destroyed }, acts1)

/-- The agent's map of FIP namespaces; a FipNamespace object identity is a
handle drawn from next_handle. -/
structure FipNsAgent where
  fip_namespaces : List (String × Nat)
  next_handle : Nat
deriving DecidableEq, Repr

/-- AgentMixin.get_fip_ns (dvr.py lines 39-52): the external network id is
already a string in the model (the source normalizes it with str());
a FipNamespace is created and stored only when the id is absent, and the
stored handle is returned. -/
def get_fip_ns (a : FipNsAgent) (ext_net_id : String) : FipNsAgent × Nat :=
  match assocLookup a.fip_namespaces ext_net_id with
  | some h => (a, h)
  | none =>
    ({ fip_namespaces := a.fip_namespaces ++ [(ext_net_id, a.next_handle)],
       next_handle := a.next_handle + 1 }, a.next_handle)

/-- Python exception classes that matter to the embedded code. -/
inductive PyError where
  | keyError
  | attributeError
  | runtimeError
deriving DecidableEq, Repr

structure HaRouterInfo where
  router_id : String
  ns_name : String
deriving DecidableEq, Repr

inductive ProxyAction where
  | spawn_metadata (ns_name router_id : String)
  | destroy_metadata (router_id ns_name : String)
  | log_unmanaged (router_id : String)
deriving DecidableEq, Repr

/-- Python d[k] on a dict: KeyError when the key is absent. -/
def dictGetItem {α : Type} (d : List (String × α)) (k : String) : Except PyError α :=
  match assocLookup d k with
  | some v => Except.ok v
  | none => Except.error PyError.keyError

/-- AgentMixin._update_metadata_proxy (ha.py lines 107-123). The try block
wraps only the router_info lookup, and the except clause catches
AttributeError only, while a missing key in the router_info dict raises
KeyError; on a managed router the exact string "master" spawns the
monitored metadata proxy and every other state token destroys it. -/
def update_metadata_proxy (router_info : List (String × HaRouterInfo))
    (router_id state : String) : Except PyError (List ProxyAction) :=
  match dictGetItem router_info router_id with
  | Except.error PyError.attributeError => Except.ok [ProxyAction.log_unmanaged router_id]
  | Except.error e => Except.error e
  | Except.ok ri =>
    if state = "master" then
      Except.ok [ProxyAction.spawn_metadata ri.ns_name ri.router_id]
    else
      Except.ok [ProxyAction.destroy_metadata ri.router_id ri.ns_name]

/-- An internal router port: its id and the subnet ids of its fixed IPs. -/
structure Port where
  id : String
  subnet_ids : List String
deriving DecidableEq, Repr

/-- The router record an agent holds for one router id, as used by the
ARP path: its internal ports. -/
structure DvrRouterPorts where
  router_id : String
  ports : List Port
deriving DecidableEq, Repr

/-- AgentMixin.get_internal_port (dvr.py lines 90-97): first internal port
with a fixed IP on the given subnet, none otherwise. -/
def get_internal_port (ports : List Port) (subnet_id : String) : Option Port :=
  match ports with
  | [] => none
  | p :: rest =>
    if p.subnet_ids.contains subnet_id then some p
    else get_internal_port rest subnet_id

inductive ArpAction where
  | neigh_add (ip mac : String)
  | neigh_delete (ip mac : String)
deriving DecidableEq, Repr

/-- AgentMixin._update_arp_entry (dvr.py lines 261-279). prim is the
outcome of the underlying neighbor primitive; the except Exception clause
turns any failure inside the try block into fullsync := true and a normal
return. A router with no port on the subnet is a no-op. Returns the new
fullsync flag and the trace of neighbor operations. -/
def update_arp_entry (ports : List Port) (fullsync : Bool)
    (ip mac subnet_id op : String) (prim : Except PyError Unit) :
    Except PyError (Bool × List ArpAction) :=
  match get_internal_port ports subnet_id with
  | none => Except.ok (fullsync, [])
  | some _ =>
    let body : Except PyError (List ArpAction) :=
      if op = "add" then prim.map (fun _ => [ArpAction.neigh_add ip mac])
      else if op = "delete" then prim.map (fun _ => [ArpAction.neigh_delete ip mac])
      else Except.ok []
    match body with
    | Except.ok acts => Except.ok (fullsync, acts)
    | Except.error _ => Except.ok (true, [])

/-- AgentMixin.add_arp_entry (dvr.py lines 281-290): router_info.get —
an unmanaged router id is a silent no-op. -/
def add_arp_entry (router_info : List (String × DvrRouterPorts)) (fullsync : Bool)
    (router_id ip mac subnet_id : String) (prim : Except PyError Unit) :
    Except PyError (Bool × List ArpAction) :=
  match assocLookup router_info router_id with
  | none => Except.ok (fullsync, [])
  | some ri => update_arp_entry ri.ports fullsync ip mac subnet_id "add" prim

/-- AgentMixin.del_arp_entry (dvr.py lines 292-301). -/
def del_arp_entry (router_info : List (String × DvrRouterPorts)) (fullsync : Bool)
    (router_id ip mac subnet_id : String) (prim : Except PyError Unit) :
    Except PyError (Bool × List ArpAction) :=
  match assocLookup router_info router_id with
  | none => Except.ok (fullsync, [])
  | some ri => update_arp_entry ri.ports fullsync ip mac subnet_id "delete" prim

/-- A freshly scheduled distributed router subscribed to its FIP
namespace, before any floating IP was added. -/
def exampleDvrState0 : DvrState :=
  { ri := { router_id := "router-1", floating_ips_dict := [],
            dist_fip_count := 0, rtr_fip_subnet := some () },
    fip_ns := { subscribers := ["router-1"], free_priorities := [32768, 32769] },
    fip_ns_destroyed := false }

/-- A router holding one distributed floating IP, sharing its FIP
namespace with a second router. -/
def exampleDvrState1 : DvrState :=
  { ri := { router_id := "router-1",
            floating_ips_dict := [("203.0.113.10", 32768)],
            dist_fip_count := 1, rtr_fip_subnet := some () },
    fip_ns := { subscribers := ["router-1", "router-2"], free_priorities := [32769] },
    fip_ns_destroyed := false }

/-- A router holding one distributed floating IP and being the last
subscriber of its FIP namespace. -/
def exampleDvrState2 : DvrState :=
  { ri := { router_id := "router-1",
            floating_ips_dict := [("203.0.113.10", 32768)],
            dist_fip_count := 1, rtr_fip_subnet := some () },
    fip_ns := { subscribers := ["router-1"], free_priorities := [] },
    fip_ns_destroyed := false }

set_option maxRecDepth 8000 in
/-- CRC-32 sanity check: the standard check value of CRC-32/ISO-HDLC,
matching binascii.crc32. -/
theorem crc32_check_value : crc32 "123456789" = 0xcbf43926 := by decide

theorem assocLookup_append_none {α : Type} (l : List (String × α)) (k : String) (v : α)
    (h : assocLookup l k = none) : assocLookup (l ++ [(k, v)]) k = some v := by
  induction l with
  | nil => simp [assocLookup]
  | cons hd tl ih =>
    obtain ⟨k2, v2⟩ := hd
    rw [List.cons_append]
    rw [assocLookup] at h ⊢
    split at h
    · exact absurd h (by simp)
    · rename_i hne
      rw [if_neg hne]
      exact ih h

/-- Claim C8: get_fip_ns is memoized by external network id: a call with
an id that is already present returns the identical handle and leaves the
agent state unchanged (no new FipNamespace created), so every call after
the first for a given id returns the handle created by the first call,
which is stored in the map. -/
theorem get_fip_ns_memoized (a : FipNsAgent) (ext_net_id : String) :
    get_fip_ns (get_fip_ns a ext_net_id).1 ext_net_id = get_fip_ns a ext_net_id ∧
    assocLookup (get_fip_ns a ext_net_id).1.fip_namespaces ext_net_id =
      some (get_fip_ns a ext_net_id).2 := by
  cases h : assocLookup a.fip_namespaces ext_net_id with
  | some v => constructor <;> simp [get_fip_ns, h]
  | none =>
    have h2 := assocLookup_append_none a.fip_namespaces ext_net_id a.next_handle h
    constructor <;> simp [get_fip_ns, h, h2]

/-- Claim C3 counterexample: the valid IPv4 CIDR 0.0.0.1/32 is mapped by
_get_snat_idx to 1, which is below 32768, so the result is not always at
least 32768. -/
theorem get_snat_idx_ipv4_below_32768 :
    get_snat_idx "0.0.0.1/32" = some 1 ∧ (1 : Nat) < 32768 := by
  constructor
  · decide
  · decide

/-- Claim C3 (amended): for every valid IPv6 CIDR input, _get_snat_idx
returns a value that is at least 32768; IPv4 inputs return the address's
numeric value, which can be smaller. -/
theorem get_snat_idx_ipv6_ge_32768 (s : String) (r : Nat)
    (hv : ipNetworkParse s = some IPNetV.v6) (hr : get_snat_idx s = some r) :
    32768 ≤ r := by
  have hidx : get_snat_idx s =
      some (let snat_idx := crc32 s &&& 0xffffffff
            let folded := (snat_idx >>> 30) ^^^ (snat_idx &&& MASK_30)
            if folded < 32768 then folded + MASK_30 else folded) := by
    unfold get_snat_idx
    rw [hv]
  rw [hidx] at hr
  have e := Option.some.inj hr
  subst e
  dsimp only
  split
  · unfold MASK_30
    omega
  · omega

set_option maxRecDepth 8000 in
/-- Claim C3 witness: the IPv6 CIDR 2001:db8::/64 maps to 656632326,
which is at least 32768. -/
theorem get_snat_idx_ipv6_ge_32768_witness : (32768 : Nat) ≤ 656632326 :=
  get_snat_idx_ipv6_ge_32768 "2001:db8::/64" 656632326 (by decide) (by decide)

/-- Claim C7 counterexample: for the IPv4 CIDR 10.0.0.5/24 the function
returns the value of the written address 10.0.0.5 (167772165), not the
value of the network's base address 10.0.0.0 (167772160). -/
theorem get_snat_idx_keeps_host_bits :
    get_snat_idx "10.0.0.5/24" = some 167772165 ∧
    specIPv4BaseValue "10.0.0.5/24" = some 167772160 ∧
    ¬ (167772165 : Nat) = 167772160 := by
  refine ⟨by decide, by decide, by decide⟩

/-- Claim C7 (amended): _get_snat_idx is a pure function of the CIDR
string (hence deterministic), and for every IPv4 CIDR the result is the
integer value of the address as written, host bits included; that value
coincides with the network base address value exactly when the host bits
are zero. -/
theorem get_snat_idx_ipv4_value (s : String) (v p : Nat)
    (h : parseIPv4 s = some (v, p)) :
    get_snat_idx s = some v ∧
    (specIPv4BaseValue s = some v ↔ v % 2 ^ (32 - p) = 0) := by
  have hip : ipNetworkParse s = some (IPNetV.v4 v p) := by
    unfold ipNetworkParse
    rw [h]
  constructor
  · unfold get_snat_idx
    rw [hip]
  · unfold specIPv4BaseValue
    rw [h]
    simp only [Option.map_some', Option.some.injEq]
    rw [Nat.shiftLeft_eq, Nat.shiftRight_eq_div_pow]
    constructor
    · intro he
      have h1 := Nat.div_add_mod v (2 ^ (32 - p))
      rw [Nat.mul_comm] at h1
      omega
    · intro hm
      exact Nat.div_mul_cancel (Nat.dvd_of_mod_eq_zero hm)

/-- Claim C7 witness: for 10.0.0.0/24 the result is 167772160, the value
of 10.0.0.0, and it equals the base address value since the host bits of
that CIDR are zero. -/
theorem get_snat_idx_ipv4_value_witness :
    get_snat_idx "10.0.0.0/24" = some 167772160 ∧
    (specIPv4BaseValue "10.0.0.0/24" = some 167772160 ↔
      167772160 % 2 ^ (32 - 24) = 0) :=
  get_snat_idx_ipv4_value "10.0.0.0/24" 167772160 24 (by decide)

/-- Claim C6 counterexample: for the subnet CIDR 10.0.0.1/24 on device
qr-dev, _snat_redirect_remove issues exactly the gateway-route deletion
and the policy-rule deletion; no sysctl action re-enabling ICMP redirects
is among its effects. -/
theorem snat_redirect_remove_no_sysctl :
    snat_redirect_remove "10.0.0.1/24" "qr-dev" =
      some [SnatAction.delGateway "qr-dev" 167772161,
            SnatAction.ruleDel "10.0.0.1/24" 167772161 167772161] ∧
    ¬ SnatAction.sysctlSendRedirects "qr-dev" true ∈
        [SnatAction.delGateway "qr-dev" 167772161,
         SnatAction.ruleDel "10.0.0.1/24" 167772161 167772161] := by
  refine ⟨by decide, by decide⟩

/-- Claim C6 (amended): for the same subnet, _snat_redirect_remove
reverses exactly the first two effects of _snat_redirect_add — it removes
the default route in the subnet's table and the policy rule matching the
subnet's CIDR at the priority equal to the table index — but it does not
re-enable ICMP redirects on the internal device: its two actions undo the
first two add-side actions and neither undoes the sysctl action. -/
theorem snat_redirect_remove_reverses_two (ip_cidr gateway sn_int : String)
    (snat_idx : Nat) (h : get_snat_idx ip_cidr = some snat_idx) :
    snat_redirect_add ip_cidr gateway sn_int =
      some [SnatAction.addGateway sn_int gateway snat_idx,
            SnatAction.ruleAdd ip_cidr snat_idx snat_idx,
            SnatAction.sysctlSendRedirects sn_int false] ∧
    snat_redirect_remove ip_cidr sn_int =
      some [SnatAction.delGateway sn_int snat_idx,
            SnatAction.ruleDel ip_cidr snat_idx snat_idx] ∧
    SnatAction.isUndoOf (SnatAction.delGateway sn_int snat_idx)
        (SnatAction.addGateway sn_int gateway snat_idx) = true ∧
    SnatAction.isUndoOf (SnatAction.ruleDel ip_cidr snat_idx snat_idx)
        (SnatAction.ruleAdd ip_cidr snat_idx snat_idx) = true ∧
    SnatAction.isUndoOf (SnatAction.delGateway sn_int snat_idx)
        (SnatAction.sysctlSendRedirects sn_int false) = false ∧
    SnatAction.isUndoOf (SnatAction.ruleDel ip_cidr snat_idx snat_idx)
        (SnatAction.sysctlSendRedirects sn_int false) = false := by
  refine ⟨?_, ?_, ?_, ?_, rfl, rfl⟩
  · simp [snat_redirect_add, h]
  · simp [snat_redirect_remove, h]
  · simp [SnatAction.isUndoOf]
  · simp [SnatAction.isUndoOf]

/-- Claim C6 witness: the amended statement evaluated at the subnet CIDR
10.0.0.1/24, gateway 192.168.0.1 and device qr-dev. -/
theorem snat_redirect_remove_reverses_two_witness :
    snat_redirect_add "10.0.0.1/24" "192.168.0.1" "qr-dev" =
      some [SnatAction.addGateway "qr-dev" "192.168.0.1" 167772161,
            SnatAction.ruleAdd "10.0.0.1/24" 167772161 167772161,
            SnatAction.sysctlSendRedirects "qr-dev" false] ∧
    snat_redirect_remove "10.0.0.1/24" "qr-dev" =
      some [SnatAction.delGateway "qr-dev" 167772161,
            SnatAction.ruleDel "10.0.0.1/24" 167772161 167772161] ∧
    SnatAction.isUndoOf (SnatAction.delGateway "qr-dev" 167772161)
        (SnatAction.addGateway "qr-dev" "192.168.0.1" 167772161) = true ∧
    SnatAction.isUndoOf (SnatAction.ruleDel "10.0.0.1/24" 167772161 167772161)
        (SnatAction.ruleAdd "10.0.0.1/24" 167772161 167772161) = true ∧
    SnatAction.isUndoOf (SnatAction.delGateway "qr-dev" 167772161)
        (SnatAction.sysctlSendRedirects "qr-dev" false) = false ∧
    SnatAction.isUndoOf (SnatAction.ruleDel "10.0.0.1/24" 167772161 167772161)
        (SnatAction.sysctlSendRedirects "qr-dev" false) = false :=
  snat_redirect_remove_reverses_two "10.0.0.1/24" "192.168.0.1" "qr-dev" 167772161
    (by decide)

/-- Claim C1: evaluation at the failing input. Starting from a fresh
router subscribed to its FIP namespace, adding the floating IP
203.0.113.10 and then removing 203.0.113.10/32 leaves dist_fip_count at 0
while floating_ips_dict still has 1 entry (the entry is never deleted),
so the count does not equal the cardinality of the table after each
call. -/
theorem add_then_remove_count_table_divergence :
    (floating_ip_added_dist exampleDvrState0 "203.0.113.10" "10.0.0.5"
        "203.0.113.10/32").map
      (fun r =>
        ((floating_ip_removed_dist r.1 "203.0.113.10/32").1.ri.dist_fip_count,
         (floating_ip_removed_dist r.1 "203.0.113.10/32").1.ri.floating_ips_dict.length))
      = some ((0 : Int), 1) := by decide

/-- Claim C2: evaluation at the failing input. Removing the never-added
floating IP 198.51.100.7/32 from a router that holds one genuine floating
IP is not a no-op: the count drops from 1 to 0, a route deletion is
issued, the subnet lease is released and the router is unsubscribed from
the FIP namespace, while the floating-IP table still holds its entry. -/
theorem remove_never_added_mutates_state :
    floating_ip_removed_dist exampleDvrState1 "198.51.100.7/32" =
      ({ ri := { router_id := "router-1",
                 floating_ips_dict := [("203.0.113.10", 32768)],
                 dist_fip_count := 0, rtr_fip_subnet := none },
         fip_ns := { subscribers := ["router-2"], free_priorities := [32769] },
         fip_ns_destroyed := false },
       [FipAction.routeDel "198.51.100.7/32", FipAction.delGatewayFipTable,
        FipAction.delVeth]) := by decide

/-- Claim C5: evaluation at the failing input. For a router id absent
from router_info, the HA state-change path raises KeyError (the except
clause catches AttributeError, which a dict lookup never raises), while
the ARP add/delete RPC paths are silent no-ops as the claim says. -/
theorem unmanaged_router_event_divergence :
    update_metadata_proxy [] "router-1" "master" = Except.error PyError.keyError ∧
    update_metadata_proxy [] "router-1" "backup" = Except.error PyError.keyError ∧
    add_arp_entry [] false "router-1" "10.0.0.5" "fa:16:3e:00:00:01" "subnet-1"
      (Except.ok ()) = Except.ok (false, []) ∧
    del_arp_entry [] false "router-1" "10.0.0.5" "fa:16:3e:00:00:01" "subnet-1"
      (Except.ok ()) = Except.ok (false, []) :=
  ⟨rfl, rfl, rfl, rfl⟩

/-- Claim C4: floating_ip_removed_dist invokes FIP-namespace destruction
exactly when the decremented distributed-floating-IP count is zero and
the unsubscribe of this router reports that the subscriber set became
empty; and whenever destruction is invoked, no router remains
subscribed. -/
theorem removed_dist_destroys_iff_last (s : DvrState) (fip_cidr : String) :
    (FipAction.destroyFipNamespace ∈ (floating_ip_removed_dist s fip_cidr).2 ↔
      ((floating_ip_removed_dist s fip_cidr).1.ri.dist_fip_count = 0 ∧
        (FipNs.unsubscribe s.fip_ns s.ri.router_id).2 = true)) ∧
    (FipAction.destroyFipNamespace ∈ (floating_ip_removed_dist s fip_cidr).2 →
      (floating_ip_removed_dist s fip_cidr).1.fip_ns.subscribers = []) := by
  obtain ⟨⟨rid, dict, cnt, lease⟩, ⟨subs, free⟩, destroyed⟩ := s
  by_cases hl : lease = none <;>
    cases hfind : assocLookup dict (cidrAddr fip_cidr) <;>
      by_cases hc : cnt - 1 = 0 <;>
        cases he : (subs.filter (fun r => r != rid)).isEmpty <;>
          simp_all [floating_ip_removed_dist, FipNs.unsubscribe,
            FipNs.deallocate_rule_priority, List.mem_append,
            List.isEmpty_iff]

/-- Claim C4 witness: in a state with one floating IP, count 1 and this
router as the only subscriber, removing that floating IP does invoke the
namespace destruction. -/
theorem removed_dist_destroys_iff_last_witness :
    FipAction.destroyFipNamespace ∈
      (floating_ip_removed_dist exampleDvrState2 "203.0.113.10/32").2 :=
  (removed_dist_destroys_iff_last exampleDvrState2 "203.0.113.10/32").1.mpr
    (by decide)

/-- Claim C9: _update_arp_entry never propagates an exception from the
neighbor primitive: for every outcome of the primitive the call returns
normally, and when a port on the subnet exists and the primitive fails
during an add or a delete, the result is a normal return with the
fullsync flag set to true. -/
theorem update_arp_entry_never_raises (ports : List Port) (fullsync : Bool)
    (ip mac subnet_id op : String) (prim : Except PyError Unit)
    (p : Port) (e : PyError) :
    (∃ r, update_arp_entry ports fullsync ip mac subnet_id op prim = Except.ok r) ∧
    (get_internal_port ports subnet_id = some p → prim = Except.error e →
      (op = "add" ∨ op = "delete") →
      update_arp_entry ports fullsync ip mac subnet_id op prim = Except.ok (true, [])) := by
  unfold update_arp_entry
  cases hport : get_internal_port ports subnet_id with
  | none =>
    refine ⟨⟨(fullsync, []), rfl⟩, ?_⟩
    intro hcontra
    exact absurd hcontra (by simp)
  | some q =>
    by_cases ha : op = "add" <;> by_cases hd : op = "delete" <;>
      cases prim <;>
        simp_all [Except.map]

/-- Claim C9 witness: a failing neighbor add on a subnet the router has a
port on returns normally with fullsync set. -/
theorem update_arp_entry_never_raises_witness :
    update_arp_entry [{ id := "port-1", subnet_ids := ["subnet-1"] }] false
      "10.0.0.5" "fa:16:3e:00:00:01" "subnet-1" "add"
      (Except.error PyError.runtimeError) = Except.ok (true, []) :=
  (update_arp_entry_never_raises [{ id := "port-1", subnet_ids := ["subnet-1"] }]
      false "10.0.0.5" "fa:16:3e:00:00:01" "subnet-1" "add"
      (Except.error PyError.runtimeError)
      { id := "port-1", subnet_ids := ["subnet-1"] } PyError.runtimeError).2
    (by decide) rfl (Or.inl rfl)

/-- Claim C10: for a managed router, _update_metadata_proxy spawns the
monitored metadata proxy exactly on the state token "master" and destroys
it on every other token. -/
theorem update_metadata_proxy_dispatch (router_info : List (String × HaRouterInfo))
    (router_id state : String) (ri : HaRouterInfo)
    (h : assocLookup router_info router_id = some ri) :
    (state = "master" →
      update_metadata_proxy router_info router_id state =
        Except.ok [ProxyAction.spawn_metadata ri.ns_name ri.router_id]) ∧
    (¬ state = "master" →
      update_metadata_proxy router_info router_id state =
        Except.ok [ProxyAction.destroy_metadata ri.router_id ri.ns_name]) := by
  unfold update_metadata_proxy dictGetItem
  rw [h]
  constructor
  · intro hs
    simp [hs]
  · intro hs
    simp [hs]

/-- Claim C10 witness: the unrecognized token "unknown" destroys the
proxy for a managed router. -/
theorem update_metadata_proxy_dispatch_witness :
    update_metadata_proxy
      [("router-1", { router_id := "router-1", ns_name := "qrouter-1" })]
      "router-1" "unknown" =
      Except.ok [ProxyAction.destroy_metadata "router-1" "qrouter-1"] :=
  (update_metadata_proxy_dispatch
      [("router-1", { router_id := "router-1", ns_name := "qrouter-1" })]
      "router-1" "unknown" { router_id := "router-1", ns_name := "qrouter-1" }
      (by decide)).2 (by decide)
